import Mathlib

/-!
# EcoQuest backend — shallow embedding

A shallow embedding of `src/backend/main.py` (a small FastAPI + SQLAlchemy
service): the three persisted entities (`User`, `Challenge`, `Submission`),
the token and credential modules, and the request handlers
(`register`, `login`, `create_challenge`, `submit`, `leaderboard`).

Conventions of the embedding:
* The SQLite database session is a `DB` value threaded explicitly; each
  handler returns `(Except HTTPError Result) × DB`, and a handler that raises
  `HTTPException` before `db.commit()` returns the database unchanged
  (SQLAlchemy only persists mutations at `commit()`).
* Primary keys are modelled by per-table counters starting at 1, matching
  SQLite `INTEGER PRIMARY KEY` assignment for insert-only tables.
* `passlib`'s bcrypt context is modelled by a deterministic tagged hash
  satisfying the library contract `verify p (hash p) = true` and
  `verify p h = true ↔ h = hash p`.
* `python-jose` JWTs are modelled symbolically: a token is either a payload
  signed with a key, or an arbitrary non-JWT string.  `jwt.decode` checks the
  key and the `exp` claim (jose raises `ExpiredSignatureError`, a subclass of
  `JWTError`, when `exp < now` with zero leeway).
* `datetime.utcnow()` is a `now : Nat` parameter (seconds since the epoch);
  `timedelta(minutes=m)` is `m * 60` seconds.  Python's `expires_delta or
  timedelta(minutes=15)` treats a zero timedelta as falsy, which the model
  reproduces.
-/

namespace EcoQuest

/-- `SECRET_KEY = "ecoquestsecret"` (main.py line 17). -/
def SECRET_KEY : String := "ecoquestsecret"

/-- `ACCESS_TOKEN_EXPIRE_MINUTES = 60` (main.py line 19). -/
def ACCESS_TOKEN_EXPIRE_MINUTES : Nat := 60

/-- Model of `pwd_context.hash` (bcrypt): deterministic tagged hash. -/
def pwd_hash (p : String) : String := "bcrypt$" ++ p

/-- Model of `pwd_context.verify`: true exactly on the matching hash. -/
def pwd_verify (p h : String) : Bool := h == pwd_hash p

/-- JWT claim set used by the app: an optional `sub` claim and the `exp`
claim (seconds since the epoch). -/
structure TokenPayload where
  sub : Option String
  exp : Nat
deriving Repr, DecidableEq

/-- A token string, modelled symbolically: either a well-formed JWT signed
with some key, or a string that is not a structurally valid JWT. -/
inductive Token where
  | signed (payload : TokenPayload) (key : String)
  | garbage (s : String)
deriving Repr, DecidableEq

/-- Failure modes of `jose.jwt.decode`: `JWTError` for a structurally
invalid token, `JWTError` for a bad signature, and the subclass
`ExpiredSignatureError` for an expired token. -/
inductive JWTErr where
  | malformed
  | invalidSignature
  | expiredSignature
deriving Repr, DecidableEq

/-- Model of `jwt.encode(payload, key, algorithm=HS256)`. -/
def jwt_encode (payload : TokenPayload) (key : String) : Token :=
  .signed payload key

/-- Model of `jwt.decode(token, key, algorithms=[HS256])` at time `now`:
checks structure, signature, then expiry (expired when `exp < now`). -/
def jwt_decode (t : Token) (key : String) (now : Nat) : Except JWTErr TokenPayload :=
  match t with
  | .garbage _ => .error .malformed
  | .signed p k =>
    if k ≠ key then .error .invalidSignature
    else if p.exp < now then .error .expiredSignature
    else .ok p

/-- `create_access_token` (main.py lines 141-145): the payload dict is
`{"sub": ...}`, modelled by its optional `sub` entry; `expires_delta` is an
optional duration in seconds.  `expires_delta or timedelta(minutes=15)`
falls back to 15 minutes when the delta is absent or zero (a zero timedelta
is falsy in Python). -/
def create_access_token (data_sub : Option String) (expires_delta : Option Nat)
    (now : Nat) : Token :=
  let delta : Nat :=
    match expires_delta with
    | none => 15 * 60
    | some d => if d == 0 then 15 * 60 else d
  jwt_encode { sub := data_sub, exp := now + delta } SECRET_KEY

/-- Row of the `users` table (main.py lines 30-37). -/
structure User where
  id : Nat
  username : String
  hashed_password : String
  role : String
  points : Int
deriving Repr, DecidableEq

/-- Row of the `challenges` table (main.py lines 39-45). -/
structure Challenge where
  id : Nat
  title : String
  description : String
  points : Int
deriving Repr, DecidableEq

/-- Row of the `submissions` table (main.py lines 47-55). -/
structure Submission where
  id : Nat
  proof_text : String
  status : String
  user_id : Nat
  challenge_id : Nat
deriving Repr, DecidableEq

/-- The persistent state: the three tables plus the next primary key of
each (insert-only tables, so SQLite assigns consecutive ids from 1). -/
structure DB where
  users : List User
  challenges : List Challenge
  submissions : List Submission
  nextUserId : Nat
  nextChallengeId : Nat
  nextSubmissionId : Nat
deriving Repr, DecidableEq

/-- `HTTPException(status_code=..., detail=...)`. -/
structure HTTPError where
  status : Nat
  detail : String
deriving Repr, DecidableEq

/-- The state after startup: `seed_admin()` (main.py lines 60-76) has
inserted the single admin row into an empty database. -/
def initDB : DB where
  users := [⟨1, "admin", pwd_hash "admin123", "admin", 0⟩]
  challenges := []
  submissions := []
  nextUserId := 2
  nextChallengeId := 1
  nextSubmissionId := 1

/-- `db.query(User).filter(User.username == uname).first()`. -/
def findUser? (db : DB) (uname : String) : Option User :=
  db.users.find? (fun u => u.username == uname)

/-- `db.query(Challenge).filter(Challenge.id == cid).first()`. -/
def findChallenge? (db : DB) (cid : Nat) : Option Challenge :=
  db.challenges.find? (fun c => c.id == cid)

/-- The `Authorization` header, modelled structurally: either
`Bearer <token>` or a value without the `Bearer ` prefix. -/
inductive AuthHeader where
  | bearer (t : Token)
  | raw (s : String)
deriving Repr, DecidableEq

/-- `get_current_user` (main.py lines 147-161): check the `Bearer ` prefix,
decode the token (any `JWTError`, expiry included, becomes 401
"Invalid token"), check the `sub` claim is present and truthy, then resolve
the user by username. -/
def get_current_user (authorization : AuthHeader) (now : Nat) (db : DB) :
    Except HTTPError User :=
  match authorization with
  | .raw _ => .error ⟨401, "Invalid auth header"⟩
  | .bearer token =>
    match jwt_decode token SECRET_KEY now with
    | .error _ => .error ⟨401, "Invalid token"⟩
    | .ok payload =>
      match payload.sub with
      | none => .error ⟨401, "Invalid token"⟩
      | some username =>
        if username == "" then .error ⟨401, "Invalid token"⟩
        else
          match findUser? db username with
          | none => .error ⟨404, "User not found"⟩
          | some user => .ok user

/-- Body of `POST /register`. -/
structure RegisterRequest where
  username : String
  password : String
deriving Repr, DecidableEq

/-- Body of `POST /login`. -/
structure LoginRequest where
  username : String
  password : String
deriving Repr, DecidableEq

/-- Body of `POST /challenges`. -/
structure ChallengeCreate where
  title : String
  description : String
  points : Int
deriving Repr, DecidableEq

/-- Body of `POST /submissions`. -/
structure SubmissionCreate where
  challenge_id : Nat
  proof_text : String
deriving Repr, DecidableEq

/-- Success body of `POST /login`. -/
structure LoginResponse where
  access_token : Token
  token_type : String
  role : String
  username : String
  points : Int
deriving Repr, DecidableEq

/-- `register` (main.py lines 166-173): reject a taken username with
400 "Username taken" (the spec's `Conflict`), otherwise insert a student
with hashed password and default points 0. -/
def register (req : RegisterRequest) (db : DB) : Except HTTPError String × DB :=
  match findUser? db req.username with
  | some _ => (.error ⟨400, "Username taken"⟩, db)
  | none =>
    let user : User :=
      ⟨db.nextUserId, req.username, pwd_hash req.password, "student", 0⟩
    (.ok "User registered",
      { db with users := db.users ++ [user], nextUserId := db.nextUserId + 1 })

/-- `login` (main.py lines 175-187): verify the password, then issue a token
for `req.username` with an explicit 60-minute expiry. -/
def login (req : LoginRequest) (now : Nat) (db : DB) :
    Except HTTPError LoginResponse × DB :=
  match findUser? db req.username with
  | none => (.error ⟨400, "Invalid credentials"⟩, db)
  | some user =>
    if ¬ pwd_verify req.password user.hashed_password then
      (.error ⟨400, "Invalid credentials"⟩, db)
    else
      let token :=
        create_access_token (some req.username)
          (some (ACCESS_TOKEN_EXPIRE_MINUTES * 60)) now
      (.ok ⟨token, "bearer", user.role, user.username, user.points⟩, db)

/-- `create_challenge` (main.py lines 196-207): authenticate, require the
admin role, then insert the challenge (its `points` is any client-supplied
integer: no sign check). -/
def create_challenge (ch : ChallengeCreate) (authorization : AuthHeader)
    (now : Nat) (db : DB) : Except HTTPError String × DB :=
  match get_current_user authorization now db with
  | .error e => (.error e, db)
  | .ok current_user =>
    if current_user.role ≠ "admin" then
      (.error ⟨403, "Only admin can create challenges"⟩, db)
    else
      let challenge : Challenge :=
        ⟨db.nextChallengeId, ch.title, ch.description, ch.points⟩
      (.ok "Challenge created",
        { db with challenges := db.challenges ++ [challenge],
                  nextChallengeId := db.nextChallengeId + 1 })

/-- `current_user.points += challenge.points`, committed: the user row with
the caller's id gets the increment. -/
def updatePoints (users : List User) (uid : Nat) (delta : Int) : List User :=
  users.map (fun u => if u.id == uid then { u with points := u.points + delta } else u)

/-- `submit` (main.py lines 209-227): authenticate, look up the challenge
(404 if absent), then in one commit insert a `completed` submission and add
the challenge's points to the caller.  No check for a prior submission. -/
def submit (sub : SubmissionCreate) (authorization : AuthHeader) (now : Nat)
    (db : DB) : Except HTTPError String × DB :=
  match get_current_user authorization now db with
  | .error e => (.error e, db)
  | .ok current_user =>
    match findChallenge? db sub.challenge_id with
    | none => (.error ⟨404, "Challenge not found"⟩, db)
    | some challenge =>
      let s : Submission :=
        ⟨db.nextSubmissionId, sub.proof_text, "completed",
          current_user.id, sub.challenge_id⟩
      (.ok ("Challenge completed! " ++ toString challenge.points ++ " points added."),
        { db with
            users := updatePoints db.users current_user.id challenge.points,
            submissions := db.submissions ++ [s],
            nextSubmissionId := db.nextSubmissionId + 1 })

/-- Row of the `GET /leaderboard` response. -/
structure LeaderboardEntry where
  username : String
  points : Int
  role : String
deriving Repr, DecidableEq

/-- The `ORDER BY points DESC` relation on user rows. -/
def byPointsDesc (a b : User) : Prop := b.points ≤ a.points

instance : DecidableRel byPointsDesc := fun _ _ => inferInstanceAs (Decidable (_ ≤ _))

instance : IsTotal User byPointsDesc := ⟨fun a b => le_total b.points a.points⟩

instance : IsTrans User byPointsDesc := ⟨fun _ _ _ h h' => le_trans h' h⟩

/-- `leaderboard` (main.py lines 229-234):
`db.query(User).order_by(User.points.desc()).all()` projected to
`{username, points, role}`. -/
def leaderboard (db : DB) : List LeaderboardEntry :=
  (List.insertionSort byPointsDesc db.users).map
    (fun u => ⟨u.username, u.points, u.role⟩)

/-- One externally triggered state transition: any call to one of the
exposed mutating-or-not handlers, with arbitrary request data, header and
clock.  Failing calls leave the state unchanged and are included. -/
inductive Step : DB → DB → Prop where
  | register (req : RegisterRequest) (db : DB) : Step db (register req db).2
  | login (req : LoginRequest) (now : Nat) (db : DB) : Step db (login req now db).2
  | create_challenge (ch : ChallengeCreate) (a : AuthHeader) (now : Nat) (db : DB) :
      Step db (create_challenge ch a now db).2
  | submit (s : SubmissionCreate) (a : AuthHeader) (now : Nat) (db : DB) :
      Step db (submit s a now db).2

/-- States reachable from startup through the exposed operations, without
concurrent interleaving. -/
inductive Reachable : DB → Prop where
  | init : Reachable initDB
  | step {db db' : DB} : Reachable db → Step db db' → Reachable db'

/-! ## Concrete scenario states used by counterexamples and witnesses -/

/-- A well-signed bearer token for the seeded admin, expiring at time 1000. -/
def adminToken : Token := jwt_encode ⟨some "admin", 1000⟩ SECRET_KEY

/-- `Authorization: Bearer <adminToken>`. -/
def adminHdr : AuthHeader := .bearer adminToken

/-- `initDB` after the admin created a 10-point challenge. -/
def dbC : DB := (create_challenge ⟨"Recycle", "Recycle 1kg", 10⟩ adminHdr 0 initDB).2

/-- `dbC` after the admin submitted challenge 1 once. -/
def dbS1 : DB := (submit ⟨1, "p1"⟩ adminHdr 0 dbC).2

/-- `dbS1` after the admin submitted challenge 1 a second time. -/
def dbS2 : DB := (submit ⟨1, "p2"⟩ adminHdr 0 dbS1).2

/-- `initDB` after the admin created a challenge worth -5 points (no sign
check exists on `ChallengeCreate.points`). -/
def dbNeg : DB := (create_challenge ⟨"Trick", "d", -5⟩ adminHdr 0 initDB).2

/-- `dbNeg` after the admin submitted the -5-point challenge. -/
def dbNegS : DB := (submit ⟨1, "p"⟩ adminHdr 0 dbNeg).2

/-! ## Derived notions used to state the invariants -/

/-- Points of the challenge with id `cid` in table `cs` (0 if absent). -/
def challengePoints (cs : List Challenge) (cid : Nat) : Int :=
  match cs.find? (fun c => c.id == cid) with
  | some c => c.points
  | none => 0

/-- Whether user `uid` has at least one submission for challenge `cid`. -/
def hasSubmission (db : DB) (uid cid : Nat) : Bool :=
  db.submissions.any (fun s => s.user_id == uid && s.challenge_id == cid)

/-- Sum of the point values of the distinct challenges for which user `uid`
has at least one submission (the quantity named by the spec's invariant). -/
def distinctChallengeSum (db : DB) (uid : Nat) : Int :=
  ((db.challenges.filter (fun c => hasSubmission db uid c.id)).map Challenge.points).sum

/-- The spec's §3 invariant as claimed: each user's points equal the sum of
the points of the challenges for which that user has a submission. -/
def claimedPointsInv (db : DB) : Prop :=
  ∀ u ∈ db.users, u.points = distinctChallengeSum db u.id

/-- Sum, over every submission in `subs` made by user `uid` (with
multiplicity), of the referenced challenge's points in table `cs`. -/
def subsPointsSum (cs : List Challenge) (subs : List Submission) (uid : Nat) : Int :=
  ((subs.filter (fun s => s.user_id == uid)).map
    (fun s => challengePoints cs s.challenge_id)).sum

/-- Sum, over every submission of user `uid` (with multiplicity), of the
referenced challenge's points. -/
def submissionPointsSum (db : DB) (uid : Nat) : Int :=
  subsPointsSum db.challenges db.submissions uid

/-- The invariant the code actually maintains: each user's points equal the
per-submission sum, counting repeat submissions once per row. -/
def pointsInv (db : DB) : Prop :=
  ∀ u ∈ db.users, u.points = submissionPointsSum db u.id

/-- The inductive invariant of the database: primary keys are below their
counters, submissions reference keys already handed out, and the
per-submission points invariant holds. -/
structure GoodDB (db : DB) : Prop where
  usersLt : ∀ u ∈ db.users, u.id < db.nextUserId
  chLt : ∀ c ∈ db.challenges, c.id < db.nextChallengeId
  subULt : ∀ s ∈ db.submissions, s.user_id < db.nextUserId
  subCLt : ∀ s ∈ db.submissions, s.challenge_id < db.nextChallengeId
  pts : ∀ u ∈ db.users, u.points = submissionPointsSum db u.id

/-- The spec's §3 claim that points never decrease, stated positionally over
any single exposed operation (rows are never removed or reordered, so row
`i` before the step is row `i` after it). -/
def pointsMonotoneClaim : Prop :=
  ∀ db db' : DB, Step db db' →
    ∀ i (h : i < db.users.length) (h' : i < db'.users.length),
      (db.users.get ⟨i, h⟩).points ≤ (db'.users.get ⟨i, h'⟩).points

/-- The spec's §6 claim about the token default: issuing without an explicit
ttl yields an expiry 60 minutes after issuance. -/
def defaultTtlClaim : Prop :=
  ∀ (d : Option String) (now : Nat),
    create_access_token d none now = jwt_encode ⟨d, now + 60 * 60⟩ SECRET_KEY

/-- The spec's §4.2 claim that verification fails with distinct errors for
a malformed token and for a well-signed but expired token: both fail, and
the two failures are distinguishable. -/
def distinctTokenErrorsClaim : Prop :=
  ∀ (s : String) (pl : TokenPayload) (now : Nat) (db : DB), pl.exp < now →
    (∃ e, get_current_user (.bearer (.garbage s)) now db = .error e) ∧
    (∃ e, get_current_user (.bearer (.signed pl SECRET_KEY)) now db = .error e) ∧
    get_current_user (.bearer (.garbage s)) now db
      ≠ get_current_user (.bearer (.signed pl SECRET_KEY)) now db

/-! ## Helper lemmas about the operations -/

theorem login_snd (req : LoginRequest) (now : Nat) (db : DB) :
    (login req now db).2 = db := by
  unfold login
  cases findUser? db req.username with
  | none => rfl
  | some u => by_cases h : pwd_verify req.password u.hashed_password <;> simp [h]

theorem findUser?_mem {db : DB} {uname : String} {u : User}
    (h : findUser? db uname = some u) : u ∈ db.users :=
  List.mem_of_find?_eq_some h

theorem get_current_user_mem {a : AuthHeader} {now : Nat} {db : DB} {u : User}
    (h : get_current_user a now db = .ok u) : u ∈ db.users := by
  unfold get_current_user at h
  repeat' split at h
  all_goals cases h
  exact findUser?_mem (by assumption)

theorem findChallenge?_mem {db : DB} {cid : Nat} {c : Challenge}
    (h : findChallenge? db cid = some c) : c ∈ db.challenges ∧ c.id = cid := by
  refine ⟨List.mem_of_find?_eq_some h, ?_⟩
  simpa using List.find?_some h

theorem challengePoints_of_find {cs : List Challenge} {cid : Nat} {c : Challenge}
    (h : cs.find? (fun x => x.id == cid) = some c) :
    challengePoints cs cid = c.points := by
  unfold challengePoints
  rw [h]

theorem challengePoints_append {cs : List Challenge} {c : Challenge} {cid : Nat}
    (h : c.id ≠ cid) : challengePoints (cs ++ [c]) cid = challengePoints cs cid := by
  unfold challengePoints
  rw [List.find?_append]
  have hb : (c.id == cid) = false := by simpa using h
  have hc : List.find? (fun x => x.id == cid) [c] = none := by
    simp [List.find?, hb]
  rw [hc, Option.or_none]

theorem subsPointsSum_append_challenge {cs : List Challenge} {subs : List Submission}
    {uid : Nat} {c : Challenge} (h : ∀ s ∈ subs, s.challenge_id ≠ c.id) :
    subsPointsSum (cs ++ [c]) subs uid = subsPointsSum cs subs uid := by
  unfold subsPointsSum
  refine congrArg _ (List.map_congr_left ?_)
  intro s hs
  exact challengePoints_append fun he => h s (List.mem_of_mem_filter hs) he.symm

theorem subsPointsSum_append_submission (cs : List Challenge) (subs : List Submission)
    (uid : Nat) (s : Submission) :
    subsPointsSum cs (subs ++ [s]) uid
      = subsPointsSum cs subs uid
        + (if s.user_id == uid then challengePoints cs s.challenge_id else 0) := by
  unfold subsPointsSum
  rw [List.filter_append, List.map_append, List.sum_append]
  by_cases h : s.user_id == uid <;> simp [List.filter, h]

theorem subsPointsSum_of_no_user {cs : List Challenge} {subs : List Submission}
    {uid : Nat} (h : ∀ s ∈ subs, s.user_id ≠ uid) :
    subsPointsSum cs subs uid = 0 := by
  unfold subsPointsSum
  have hf : subs.filter (fun s => s.user_id == uid) = [] :=
    List.filter_eq_nil_iff.mpr (by intro s hs; simpa using h s hs)
  rw [hf]
  rfl

theorem goodDB_register (req : RegisterRequest) (db : DB) (hg : GoodDB db) :
    GoodDB (register req db).2 := by
  unfold register
  cases hfu : findUser? db req.username with
  | some u => exact hg
  | none =>
    refine ⟨?_, ?_, ?_, ?_, ?_⟩
    · intro u hu
      rcases List.mem_append.mp hu with h | h
      · exact Nat.lt_succ_of_lt (hg.usersLt u h)
      · rw [List.mem_singleton.mp h]
        exact Nat.lt_succ_self _
    · exact hg.chLt
    · exact fun s hs => Nat.lt_succ_of_lt (hg.subULt s hs)
    · exact hg.subCLt
    · intro u hu
      rcases List.mem_append.mp hu with h | h
      · exact hg.pts u h
      · rw [List.mem_singleton.mp h]
        exact (subsPointsSum_of_no_user
          fun s hs => Nat.ne_of_lt (hg.subULt s hs)).symm

theorem goodDB_login (req : LoginRequest) (now : Nat) (db : DB) (hg : GoodDB db) :
    GoodDB (login req now db).2 := by
  rw [login_snd]
  exact hg

theorem goodDB_create_challenge (ch : ChallengeCreate) (a : AuthHeader) (now : Nat)
    (db : DB) (hg : GoodDB db) : GoodDB (create_challenge ch a now db).2 := by
  unfold create_challenge
  cases hu : get_current_user a now db with
  | error e => exact hg
  | ok cu =>
    by_cases hr : cu.role ≠ "admin"
    · simp only [if_pos hr]
      exact hg
    · simp only [if_neg hr]
      refine ⟨hg.usersLt, ?_, hg.subULt, ?_, ?_⟩
      · intro c hc
        rcases List.mem_append.mp hc with h | h
        · exact Nat.lt_succ_of_lt (hg.chLt c h)
        · rw [List.mem_singleton.mp h]
          exact Nat.lt_succ_self _
      · exact fun s hs => Nat.lt_succ_of_lt (hg.subCLt s hs)
      · intro u hu'
        have hne : ∀ s ∈ db.submissions,
            s.challenge_id ≠ (⟨db.nextChallengeId, ch.title, ch.description, ch.points⟩ : Challenge).id :=
          fun s hs => Nat.ne_of_lt (hg.subCLt s hs)
        show u.points = subsPointsSum (db.challenges ++ [_]) db.submissions u.id
        rw [subsPointsSum_append_challenge hne]
        exact hg.pts u hu'

theorem goodDB_submit (sc : SubmissionCreate) (a : AuthHeader) (now : Nat)
    (db : DB) (hg : GoodDB db) : GoodDB (submit sc a now db).2 := by
  unfold submit
  cases hu : get_current_user a now db with
  | error e => exact hg
  | ok cu =>
    cases hc : findChallenge? db sc.challenge_id with
    | none => exact hg
    | some c =>
      have hcu : cu ∈ db.users := get_current_user_mem hu
      obtain ⟨hcmem, hcid⟩ := findChallenge?_mem hc
      refine ⟨?_, hg.chLt, ?_, ?_, ?_⟩
      · intro u hu'
        rcases List.mem_map.mp hu' with ⟨u0, hu0, rfl⟩
        by_cases hb : u0.id == cu.id <;> simp only [hb, if_pos, if_neg, Bool.false_eq_true,
          if_true, if_false] <;> exact hg.usersLt u0 hu0
      · intro s hs
        rcases List.mem_append.mp hs with h | h
        · exact hg.subULt s h
        · rw [List.mem_singleton.mp h]
          exact hg.usersLt cu hcu
      · intro s hs
        rcases List.mem_append.mp hs with h | h
        · exact hg.subCLt s h
        · rw [List.mem_singleton.mp h]
          show sc.challenge_id < db.nextChallengeId
          rw [← hcid]
          exact hg.chLt c hcmem
      · intro u hu'
        rcases List.mem_map.mp hu' with ⟨u0, hu0, rfl⟩
        have hpts0 := hg.pts u0 hu0
        have hcp : challengePoints db.challenges sc.challenge_id = c.points :=
          challengePoints_of_find hc
        by_cases hb : u0.id = cu.id
        · simp only [show (u0.id == cu.id) = true from beq_iff_eq.mpr hb, if_true]
          show u0.points + c.points
              = subsPointsSum db.challenges (db.submissions ++ [_]) u0.id
          rw [subsPointsSum_append_submission]
          simp only [show (cu.id == u0.id) = true from beq_iff_eq.mpr hb.symm, if_true]
          rw [hcp, hpts0]
          rfl
        · simp only [show (u0.id == cu.id) = false from beq_eq_false_iff_ne.mpr hb, if_false]
          show u0.points = subsPointsSum db.challenges (db.submissions ++ [_]) u0.id
          rw [subsPointsSum_append_submission,
            show (cu.id == u0.id) = false from beq_eq_false_iff_ne.mpr (fun he => hb he.symm)]
          simp [submissionPointsSum, hpts0]

theorem goodDB_step {db db' : DB} (hg : GoodDB db) (hs : Step db db') : GoodDB db' := by
  cases hs with
  | register req db => exact goodDB_register req db hg
  | login req now db => exact goodDB_login req now db hg
  | create_challenge ch a now db => exact goodDB_create_challenge ch a now db hg
  | submit s a now db => exact goodDB_submit s a now db hg

theorem goodDB_initDB : GoodDB initDB := by
  refine ⟨?_, ?_, ?_, ?_, ?_⟩ <;> decide

theorem reachable_goodDB {db : DB} (h : Reachable db) : GoodDB db := by
  induction h with
  | init => exact goodDB_initDB
  | step _ hs ih => exact goodDB_step ih hs

theorem submit_ok_eq {req : SubmissionCreate} {a : AuthHeader} {now : Nat} {db : DB}
    {u : User} {c : Challenge} (hu : get_current_user a now db = .ok u)
    (hc : findChallenge? db req.challenge_id = some c) :
    submit req a now db
      = (.ok ("Challenge completed! " ++ toString c.points ++ " points added."),
         { db with
             users := updatePoints db.users u.id c.points,
             submissions := db.submissions
               ++ [⟨db.nextSubmissionId, req.proof_text, "completed", u.id, req.challenge_id⟩],
             nextSubmissionId := db.nextSubmissionId + 1 }) := by
  unfold submit
  rw [hu, hc]

theorem updatePoints_get (users : List User) (uid : Nat) (delta : Int)
    (i : Nat) (h : i < users.length) (h' : i < (updatePoints users uid delta).length) :
    ((updatePoints users uid delta).get ⟨i, h'⟩).id = (users.get ⟨i, h⟩).id ∧
    ((updatePoints users uid delta).get ⟨i, h'⟩).points
      = (users.get ⟨i, h⟩).points + (if (users.get ⟨i, h⟩).id = uid then delta else 0) := by
  simp only [updatePoints, List.get_eq_getElem, List.getElem_map]
  by_cases hb : users[i].id = uid <;> simp [hb]

/-! ## The claims -/

/-- **C1.** For any authenticated user U and any existing challenge C with
point value P, a successful `Submit(U, C)` increases U's points by exactly P
over their prior value (all other rows unchanged), and creates exactly one
new Submission row whose `user_id` references U, whose `challenge_id`
references C, and whose `status` is `"completed"`. -/
theorem submit_success_effect (req : SubmissionCreate) (a : AuthHeader) (now : Nat)
    (db : DB) (u : User) (c : Challenge)
    (hu : get_current_user a now db = .ok u)
    (hc : findChallenge? db req.challenge_id = some c) :
    (submit req a now db).1
      = .ok ("Challenge completed! " ++ toString c.points ++ " points added.") ∧
    c.id = req.challenge_id ∧
    (submit req a now db).2.submissions
      = db.submissions
        ++ [⟨db.nextSubmissionId, req.proof_text, "completed", u.id, req.challenge_id⟩] ∧
    (submit req a now db).2.users.length = db.users.length ∧
    (∀ i (h : i < db.users.length) (h' : i < (submit req a now db).2.users.length),
      ((submit req a now db).2.users.get ⟨i, h'⟩).id = (db.users.get ⟨i, h⟩).id ∧
      ((submit req a now db).2.users.get ⟨i, h'⟩).points
        = (db.users.get ⟨i, h⟩).points
          + (if (db.users.get ⟨i, h⟩).id = u.id then c.points else 0)) := by
  obtain ⟨hcmem, hcid⟩ := findChallenge?_mem hc
  rw [submit_ok_eq hu hc]
  refine ⟨rfl, hcid, rfl, by simp [updatePoints], ?_⟩
  intro i h h'
  exact updatePoints_get db.users u.id c.points i h h'

/-- **C1 witness.** In `dbC` (admin plus one 10-point challenge), the
admin's submission succeeds, appends the completed row, and raises the
admin's points from 0 to 10. -/
theorem submit_success_effect_witness :
    (submit ⟨1, "w"⟩ adminHdr 0 dbC).1 = .ok "Challenge completed! 10 points added." ∧
    (submit ⟨1, "w"⟩ adminHdr 0 dbC).2.submissions = [⟨1, "w", "completed", 1, 1⟩] ∧
    ((submit ⟨1, "w"⟩ adminHdr 0 dbC).2.users.get ⟨0, by decide⟩).points
      = (dbC.users.get ⟨0, by decide⟩).points + 10 := by
  have h := submit_success_effect ⟨1, "w"⟩ adminHdr 0 dbC
    ⟨1, "admin", pwd_hash "admin123", "admin", 0⟩ ⟨1, "Recycle", "Recycle 1kg", 10⟩
    rfl rfl
  refine ⟨h.1, ?_, ?_⟩
  · rw [h.2.2.1]
    decide
  · have hp := (h.2.2.2.2 0 (by decide) (by decide)).2
    rw [hp]
    decide

/-- **C9.** Submit is atomic on failure: whenever `submit` fails (for any
reason: bad header, bad token, unknown user, or missing challenge), the
returned database equals the database before the call. -/
theorem submit_failure_atomic (req : SubmissionCreate) (a : AuthHeader) (now : Nat)
    (db : DB) (e : HTTPError) (h : (submit req a now db).1 = .error e) :
    (submit req a now db).2 = db := by
  unfold submit at h ⊢
  cases hu : get_current_user a now db with
  | error e' => rfl
  | ok cu =>
    cases hc : findChallenge? db req.challenge_id with
    | none => rfl
    | some c =>
      rw [hu, hc] at h
      exact absurd h (by simp)

/-- **C9 witness.** Submitting to the nonexistent challenge 99 right after
startup fails and leaves the database exactly as it was. -/
theorem submit_failure_atomic_witness :
    (submit ⟨99, "p"⟩ adminHdr 0 initDB).2 = initDB :=
  submit_failure_atomic ⟨99, "p"⟩ adminHdr 0 initDB
    ⟨404, "Challenge not found"⟩ rfl

/-- **C10.** Repeat submissions are not deduplicated: even when the caller
already has a submission for the same challenge, a further `submit`
succeeds, appends another Submission row for the same (user, challenge)
pair, and adds the challenge's points to the caller's total again. -/
theorem resubmit_not_deduplicated (req : SubmissionCreate) (a : AuthHeader) (now : Nat)
    (db : DB) (u : User) (c : Challenge) (s0 : Submission)
    (hu : get_current_user a now db = .ok u)
    (hc : findChallenge? db req.challenge_id = some c)
    (hs0 : s0 ∈ db.submissions) (hsu : s0.user_id = u.id)
    (hsc : s0.challenge_id = req.challenge_id) :
    (submit req a now db).1
      = .ok ("Challenge completed! " ++ toString c.points ++ " points added.") ∧
    (submit req a now db).2.submissions
      = db.submissions
        ++ [⟨db.nextSubmissionId, req.proof_text, "completed", u.id, req.challenge_id⟩] ∧
    (∀ i (h : i < db.users.length) (h' : i < (submit req a now db).2.users.length),
      ((submit req a now db).2.users.get ⟨i, h'⟩).points
        = (db.users.get ⟨i, h⟩).points
          + (if (db.users.get ⟨i, h⟩).id = u.id then c.points else 0)) := by
  rw [submit_ok_eq hu hc]
  refine ⟨rfl, rfl, ?_⟩
  intro i h h'
  exact (updatePoints_get db.users u.id c.points i h h').2

/-- **C10 witness.** In `dbS1` the admin already has a submission for
challenge 1; submitting again succeeds, appends a second row for the same
pair, and moves the admin from 10 to 20 points. -/
theorem resubmit_not_deduplicated_witness :
    (submit ⟨1, "p2"⟩ adminHdr 0 dbS1).1 = .ok "Challenge completed! 10 points added." ∧
    (submit ⟨1, "p2"⟩ adminHdr 0 dbS1).2.submissions
      = [⟨1, "p1", "completed", 1, 1⟩, ⟨2, "p2", "completed", 1, 1⟩] ∧
    ((submit ⟨1, "p2"⟩ adminHdr 0 dbS1).2.users.get ⟨0, by decide⟩).points = 20 := by
  have h := resubmit_not_deduplicated ⟨1, "p2"⟩ adminHdr 0 dbS1
    ⟨1, "admin", pwd_hash "admin123", "admin", 10⟩ ⟨1, "Recycle", "Recycle 1kg", 10⟩
    ⟨1, "p1", "completed", 1, 1⟩ rfl rfl (by decide) rfl rfl
  refine ⟨h.1, ?_, ?_⟩
  · rw [h.2.1]
    decide
  · have hp := h.2.2 0 (by decide) (by decide)
    rw [hp]
    decide

theorem register_ok_eq {req : RegisterRequest} {db : DB}
    (hfree : findUser? db req.username = none) :
    register req db
      = (.ok "User registered",
         { db with
             users := db.users
               ++ [⟨db.nextUserId, req.username, pwd_hash req.password, "student", 0⟩],
             nextUserId := db.nextUserId + 1 }) := by
  unfold register
  rw [hfree]

theorem register_taken_eq {req : RegisterRequest} {db : DB} {u : User}
    (h : findUser? db req.username = some u) :
    register req db = (.error ⟨400, "Username taken"⟩, db) := by
  unfold register
  rw [h]

theorem findUser?_after_register {req : RegisterRequest} {db : DB}
    (hfree : findUser? db req.username = none) :
    findUser? (register req db).2 req.username
      = some ⟨db.nextUserId, req.username, pwd_hash req.password, "student", 0⟩ := by
  rw [register_ok_eq hfree]
  have hfree' : List.find? (fun u => u.username == req.username) db.users = none := hfree
  show List.find? _ (db.users ++ [_]) = _
  rw [List.find?_append, hfree', Option.none_or]
  simp [List.find?]

/-- **C4.** Registering a username that is already taken fails with the
conflict error (HTTP 400 "Username taken" — the spec's `Conflict`) and
leaves the state unchanged; so registering the same username twice leaves
the stored user count larger by exactly one than before the first
registration. -/
theorem register_duplicate_conflict (req : RegisterRequest) (db : DB)
    (hfree : findUser? db req.username = none) :
    (register req db).1 = .ok "User registered" ∧
    (register req db).2.users.length = db.users.length + 1 ∧
    register req (register req db).2
      = (.error ⟨400, "Username taken"⟩, (register req db).2) := by
  refine ⟨by rw [register_ok_eq hfree], ?_, ?_⟩
  · rw [register_ok_eq hfree]
    simp
  · exact register_taken_eq (findUser?_after_register hfree)

/-- **C4 witness.** Registering "alice" at startup succeeds and bumps the
user count from 1 to 2; registering "alice" again fails with 400
"Username taken" and leaves the state unchanged. -/
theorem register_duplicate_conflict_witness :
    (register ⟨"alice", "pw"⟩ initDB).1 = .ok "User registered" ∧
    (register ⟨"alice", "pw"⟩ initDB).2.users.length = initDB.users.length + 1 ∧
    register ⟨"alice", "pw"⟩ (register ⟨"alice", "pw"⟩ initDB).2
      = (.error ⟨400, "Username taken"⟩, (register ⟨"alice", "pw"⟩ initDB).2) :=
  register_duplicate_conflict ⟨"alice", "pw"⟩ initDB rfl

/-- **C5.** For every username/password pair whose username is not already
registered, `register` followed by `login` with the same pair succeeds, and
the returned token is signed with the process secret and carries the
username as its `sub` claim (with the explicit 60-minute expiry). -/
theorem register_login_token_subject (u p : String) (now : Nat) (db : DB)
    (hfree : findUser? db u = none) :
    (login ⟨u, p⟩ now (register ⟨u, p⟩ db).2).1
      = .ok ⟨.signed ⟨some u, now + 60 * 60⟩ SECRET_KEY, "bearer", "student", u, 0⟩ := by
  have hfu : findUser? (register ⟨u, p⟩ db).2 u
      = some ⟨db.nextUserId, u, pwd_hash p, "student", 0⟩ :=
    findUser?_after_register hfree
  unfold login
  rw [hfu]
  have hv : pwd_verify p (pwd_hash p) = true := by
    simp [pwd_verify]
  simp only [hv, not_true, if_neg, if_false]
  simp [create_access_token, jwt_encode, ACCESS_TOKEN_EXPIRE_MINUTES]

/-- **C5 witness.** Registering then logging in as "alice"/"pw1" at time 0
yields a student token whose subject is "alice", expiring at 3600. -/
theorem register_login_token_subject_witness :
    (login ⟨"alice", "pw1"⟩ 0 (register ⟨"alice", "pw1"⟩ initDB).2).1
      = .ok ⟨.signed ⟨some "alice", 0 + 60 * 60⟩ SECRET_KEY, "bearer", "student", "alice", 0⟩ :=
  register_login_token_subject "alice" "pw1" 0 initDB rfl

/-- **C6.** For every database state, the leaderboard is sorted by points
in descending order and contains exactly one entry per registered user: its
username column is a permutation of the users table's username column. -/
theorem leaderboard_sorted_complete (db : DB) :
    (leaderboard db).Pairwise (fun a b => b.points ≤ a.points) ∧
    ((leaderboard db).map LeaderboardEntry.username).Perm (db.users.map User.username) := by
  constructor
  · unfold leaderboard
    exact List.pairwise_map.mpr (List.sorted_insertionSort byPointsDesc db.users)
  · unfold leaderboard
    rw [List.map_map]
    exact (List.perm_insertionSort byPointsDesc db.users).map _

theorem reachable_dbS2 : Reachable dbS2 :=
  Reachable.step (Reachable.step (Reachable.step Reachable.init
    (Step.create_challenge ⟨"Recycle", "Recycle 1kg", 10⟩ adminHdr 0 initDB))
    (Step.submit ⟨1, "p1"⟩ adminHdr 0 dbC))
    (Step.submit ⟨1, "p2"⟩ adminHdr 0 dbS1)

/-- **C2 counterexample.** The state `dbS2` — reached by creating one
10-point challenge and submitting it twice as the admin, with no
concurrency — has the admin at 20 points while the sum over challenges with
at least one submission is 10, so the claimed invariant fails on a
sequentially reachable state. -/
theorem claimed_points_inv_counterexample : Reachable dbS2 ∧ ¬ claimedPointsInv dbS2 :=
  ⟨reachable_dbS2, by unfold claimedPointsInv; decide⟩

/-- **C2 (amended).** In every state reachable through the exposed
operations (without concurrent interleaving), each user's points equal the
sum over all of that user's Submission rows — counting repeat submissions
of the same challenge once per row — of the referenced challenge's point
value. -/
theorem reachable_points_inv (db : DB) (h : Reachable db) : pointsInv db :=
  fun u hu => (reachable_goodDB h).pts u hu

/-- **C2 witness.** In the reachable state `dbS2` the admin row holds 20
points, equal to its per-submission sum (10 + 10). -/
theorem reachable_points_inv_witness :
    (⟨1, "admin", pwd_hash "admin123", "admin", 20⟩ : User).points
      = submissionPointsSum dbS2 (⟨1, "admin", pwd_hash "admin123", "admin", 20⟩ : User).id :=
  reachable_points_inv dbS2 reachable_dbS2 _ (by decide)

/-- **C3 counterexample.** `POST /challenges` accepts a negative point
value; submitting such a challenge lowers the caller's points (0 to -5 in
the step from `dbNeg` to `dbNegS`), so no exposed operation being
points-decreasing is false. -/
theorem points_monotone_counterexample : ¬ pointsMonotoneClaim := by
  intro h
  have hle := h dbNeg dbNegS (Step.submit ⟨1, "p"⟩ adminHdr 0 dbNeg)
    0 (by decide) (by decide)
  exact absurd hle (by decide)

theorem create_challenge_users (ch : ChallengeCreate) (a : AuthHeader) (now : Nat)
    (db : DB) : (create_challenge ch a now db).2.users = db.users := by
  unfold create_challenge
  cases get_current_user a now db with
  | error e => rfl
  | ok cu =>
    by_cases hr : cu.role ≠ "admin" <;> simp [hr]

/-- **C3 (amended).** Provided every challenge currently stored has a
nonnegative point value (the code never checks this at creation), no
exposed operation makes any user's points smaller: every pre-existing user
row keeps its position and its points do not decrease. -/
theorem points_monotone_of_nonneg (db db' : DB)
    (hnn : ∀ c ∈ db.challenges, 0 ≤ c.points) (hs : Step db db') :
    db.users.length ≤ db'.users.length ∧
    ∀ i (h : i < db.users.length) (h' : i < db'.users.length),
      (db.users.get ⟨i, h⟩).points ≤ (db'.users.get ⟨i, h'⟩).points := by
  cases hs with
  | register req db =>
    unfold register
    cases findUser? db req.username with
    | some u => exact ⟨le_refl _, fun i h h' => le_of_eq rfl⟩
    | none =>
      refine ⟨by simp, ?_⟩
      intro i h h'
      show (db.users.get ⟨i, h⟩).points ≤ ((db.users ++ [_]).get ⟨i, h'⟩).points
      rw [List.get_eq_getElem, List.get_eq_getElem, List.getElem_append_left h]
  | login req now db =>
    rw [login_snd]
    exact ⟨le_refl _, fun i h h' => le_of_eq rfl⟩
  | create_challenge ch a now db =>
    rw [create_challenge_users]
    exact ⟨le_refl _, fun i h h' => le_of_eq rfl⟩
  | submit sc a now db =>
    unfold submit
    cases hu : get_current_user a now db with
    | error e => exact ⟨le_refl _, fun i h h' => le_of_eq rfl⟩
    | ok cu =>
      cases hc : findChallenge? db sc.challenge_id with
      | none => exact ⟨le_refl _, fun i h h' => le_of_eq rfl⟩
      | some c =>
        obtain ⟨hcmem, hcid⟩ := findChallenge?_mem hc
        have h0 : 0 ≤ c.points := hnn c hcmem
        refine ⟨by simp [updatePoints], ?_⟩
        intro i h h'
        show (db.users.get ⟨i, h⟩).points
          ≤ ((updatePoints db.users cu.id c.points).get ⟨i, h'⟩).points
        rw [(updatePoints_get db.users cu.id c.points i h h').2]
        by_cases hb : db.users[i].id = cu.id <;> simp [hb, h0]

/-- **C3 witness.** A registration step out of the startup state (all
challenge points vacuously nonnegative) keeps the admin's points at least
what they were. -/
theorem points_monotone_of_nonneg_witness :
    initDB.users.length ≤ (register ⟨"bob", "pw"⟩ initDB).2.users.length ∧
    (initDB.users.get ⟨0, by decide⟩).points
      ≤ ((register ⟨"bob", "pw"⟩ initDB).2.users.get ⟨0, by decide⟩).points := by
  have h := points_monotone_of_nonneg initDB (register ⟨"bob", "pw"⟩ initDB).2
    (by decide) (Step.register ⟨"bob", "pw"⟩ initDB)
  exact ⟨h.1, h.2 0 (by decide) (by decide)⟩

/-- **C7 counterexample.** Calling the issuer without an explicit ttl at
time 0 yields expiry 900 (15 minutes), not 3600 (60 minutes): the default
in `create_access_token` is `timedelta(minutes=15)`. -/
theorem default_ttl_counterexample : ¬ defaultTtlClaim := by
  intro h
  exact absurd (h (some "alice") 0) (by decide)

theorem login_ok_eq {req : LoginRequest} {now : Nat} {db : DB} {user : User}
    (hfu : findUser? db req.username = some user)
    (hv : pwd_verify req.password user.hashed_password = true) :
    login req now db
      = (.ok ⟨create_access_token (some req.username)
            (some (ACCESS_TOKEN_EXPIRE_MINUTES * 60)) now,
          "bearer", user.role, user.username, user.points⟩, db) := by
  unfold login
  rw [hfu]
  show (if ¬ pwd_verify req.password user.hashed_password = true then
      ((.error ⟨400, "Invalid credentials"⟩, db) : Except HTTPError LoginResponse × DB)
    else (.ok ⟨create_access_token (some req.username)
            (some (ACCESS_TOKEN_EXPIRE_MINUTES * 60)) now,
          "bearer", user.role, user.username, user.points⟩, db)) = _
  rw [if_neg (not_not_intro hv)]

theorem login_wrong_password_eq {req : LoginRequest} {now : Nat} {db : DB} {user : User}
    (hfu : findUser? db req.username = some user)
    (hv : ¬ pwd_verify req.password user.hashed_password = true) :
    login req now db = (.error ⟨400, "Invalid credentials"⟩, db) := by
  unfold login
  rw [hfu]
  show (if ¬ pwd_verify req.password user.hashed_password = true then
      ((.error ⟨400, "Invalid credentials"⟩, db) : Except HTTPError LoginResponse × DB)
    else (.ok ⟨create_access_token (some req.username)
            (some (ACCESS_TOKEN_EXPIRE_MINUTES * 60)) now,
          "bearer", user.role, user.username, user.points⟩, db)) = _
  rw [if_pos hv]

/-- **C7 (amended).** Without an explicit ttl the issuer defaults to 15
minutes; the 60-minute lifetime holds only because `login` passes
`timedelta(minutes=ACCESS_TOKEN_EXPIRE_MINUTES)` explicitly, so every token
a successful login returns expires 60 minutes after issuance. -/
theorem token_ttl_defaults (d : Option String) (now : Nat) (req : LoginRequest)
    (db : DB) (resp : LoginResponse)
    (hlogin : (login req now db).1 = .ok resp) :
    create_access_token d none now = jwt_encode ⟨d, now + 15 * 60⟩ SECRET_KEY ∧
    resp.access_token = jwt_encode ⟨some req.username, now + 60 * 60⟩ SECRET_KEY := by
  refine ⟨rfl, ?_⟩
  cases hfu : findUser? db req.username with
  | none =>
    unfold login at hlogin
    rw [hfu] at hlogin
    exact absurd hlogin (by simp)
  | some user =>
    by_cases hv : pwd_verify req.password user.hashed_password = true
    · rw [login_ok_eq hfu hv] at hlogin
      injection hlogin with h
      rw [← h]
      rfl
    · rw [login_wrong_password_eq hfu hv] at hlogin
      exact absurd hlogin (by simp)

/-- **C7 witness.** At time 0: the no-ttl token for "x" expires at 900, and
the admin's login token expires at 3600. -/
theorem token_ttl_defaults_witness :
    create_access_token (some "x") none 0 = jwt_encode ⟨some "x", 0 + 15 * 60⟩ SECRET_KEY ∧
    (⟨.signed ⟨some "admin", 3600⟩ SECRET_KEY, "bearer", "admin", "admin", 0⟩
        : LoginResponse).access_token
      = jwt_encode ⟨some "admin", 0 + 60 * 60⟩ SECRET_KEY :=
  token_ttl_defaults (some "x") 0 ⟨"admin", "admin123"⟩ initDB
    ⟨.signed ⟨some "admin", 3600⟩ SECRET_KEY, "bearer", "admin", "admin", 0⟩ rfl

/-- **C8 counterexample.** A structurally invalid token and a well-signed
but expired token produce the *same* result from the guard (both 401
"Invalid token"), so the two failure modes are not distinguished. -/
theorem distinct_token_errors_counterexample : ¬ distinctTokenErrorsClaim := by
  intro h
  exact (h "x" ⟨some "admin", 5⟩ 10 initDB (by decide)).2.2 rfl

/-- **C8 (amended).** The underlying decoder does distinguish the two
failure modes (`malformed` versus `expiredSignature`), but the guard
collapses both into the single Unauthenticated error 401 "Invalid token";
expired tokens are still always rejected. -/
theorem token_errors_collapsed (s : String) (pl : TokenPayload) (now : Nat)
    (db : DB) (hexp : pl.exp < now) :
    jwt_decode (.garbage s) SECRET_KEY now = .error .malformed ∧
    jwt_decode (.signed pl SECRET_KEY) SECRET_KEY now = .error .expiredSignature ∧
    get_current_user (.bearer (.garbage s)) now db = .error ⟨401, "Invalid token"⟩ ∧
    get_current_user (.bearer (.signed pl SECRET_KEY)) now db
      = .error ⟨401, "Invalid token"⟩ := by
  have hdec : jwt_decode (.signed pl SECRET_KEY) SECRET_KEY now
      = .error .expiredSignature := by
    unfold jwt_decode
    simp [hexp]
  refine ⟨rfl, hdec, rfl, ?_⟩
  simp only [get_current_user]
  rw [hdec]

/-- **C8 witness.** At time 10 with the garbage token "x" and an admin
token that expired at 5, the decoder errors differ but the guard returns
the identical 401 for both. -/
theorem token_errors_collapsed_witness :
    jwt_decode (.garbage "x") SECRET_KEY 10 = .error .malformed ∧
    jwt_decode (.signed ⟨some "admin", 5⟩ SECRET_KEY) SECRET_KEY 10
      = .error .expiredSignature ∧
    get_current_user (.bearer (.garbage "x")) 10 initDB = .error ⟨401, "Invalid token"⟩ ∧
    get_current_user (.bearer (.signed ⟨some "admin", 5⟩ SECRET_KEY)) 10 initDB
      = .error ⟨401, "Invalid token"⟩ :=
  token_errors_collapsed "x" ⟨some "admin", 5⟩ 10 initDB (by decide)

end EcoQuest
